/-
  Verification development for the SensorSummary dashboard reconciliation
  engine.  The Lean definitions below are shallow embeddings of the Python
  source files:

    * `SensorCard`   — sensor_card.py   (SensorCardWidget.update_data,
                       the per-metric out-of-range classification and the
                       colour box driven by the count)
    * `Dashboard`    — dashboard_tab.py (_rebuild_layout, _on_favorite_toggled,
                       update_sensor_card)
    * `FlowLayoutM`  — flow_layout.py   (FlowLayout.doLayout, heightForWidth)
    * `RangeBarM`    — range_bar.py     (the numeric core of RangeBar.paintEvent)

  Numeric reading values are embedded as rationals (ℚ): every comparison the
  source performs on them is an order comparison, which ℚ models exactly.
  Python attribute access that can fail (a missing attribute, a missing dict
  key) is embedded with `Option`/`Except`.
-/
import Mathlib

namespace SensorCard

/-- The optional per-sensor range configuration dict passed to
`SensorCardWidget.update_data` (sensor_card.py lines 144-153): each of the six
keys may independently be absent, in which case `dict.get` supplies the
per-key default written at lines 161-168. -/
structure RangeConfigDict where
  temp_range : Option (ℚ × ℚ) := none
  temp_good  : Option (ℚ × ℚ) := none
  hum_range  : Option (ℚ × ℚ) := none
  hum_good   : Option (ℚ × ℚ) := none
  vpd_range  : Option (ℚ × ℚ) := none
  vpd_good   : Option (ℚ × ℚ) := none
deriving Repr, DecidableEq

/-- The six effective bands after the `if range_config is not None` branch of
`update_data` (sensor_card.py lines 159-178). -/
structure Bands where
  temp_range : ℚ × ℚ
  temp_good  : ℚ × ℚ
  hum_range  : ℚ × ℚ
  hum_good   : ℚ × ℚ
  vpd_range  : ℚ × ℚ
  vpd_good   : ℚ × ℚ
deriving Repr, DecidableEq

/-- sensor_card.py lines 159-178: with a config dict, each key falls back to
its `dict.get` default; with no config, the hard-coded fallback defaults. -/
def effectiveBands : Option RangeConfigDict → Bands
  | some d =>
      { temp_range := d.temp_range.getD (32, 100)
        temp_good  := d.temp_good.getD (60, 70)
        hum_range  := d.hum_range.getD (0, 100)
        hum_good   := d.hum_good.getD (45, 55)
        vpd_range  := d.vpd_range.getD (0, 3)
        vpd_good   := d.vpd_good.getD (4/5, 6/5) }
  | none =>
      { temp_range := (32, 100)
        temp_good  := (55, 65)
        hum_range  := (0, 100)
        hum_good   := (45, 65)
        vpd_range  := (0, 3)
        vpd_good   := (4/5, 6/5) }

/-- One metric's contribution to `out_of_range_count` in `update_data`
(sensor_card.py lines 181-220): absent metric contributes 0; a present value
increments the count exactly when `value < good_min or value > good_max`. -/
def metricOut (v : Option ℚ) (band : ℚ × ℚ) : Nat :=
  match v with
  | none => 0
  | some x => if x < band.1 ∨ band.2 < x then 1 else 0

/-- The total `out_of_range_count` computed by one `update_data` call
(sensor_card.py lines 157-220), as a function of the values supplied in that
call and the config supplied in that call. -/
def classify (temp hum vpd : Option ℚ) (rc : Option RangeConfigDict) : Nat :=
  let b := effectiveBands rc
  metricOut temp b.temp_good + metricOut hum b.hum_good + metricOut vpd b.vpd_good

/-- State of one `RangeBar` widget (range_bar.py lines 16-46): the five numeric
fields set by `__init__` / `setRange` / `setGoodRange` / `setValue`. -/
structure BarState where
  min_val : ℚ
  max_val : ℚ
  good_min : ℚ
  good_max : ℚ
  current_value : ℚ
deriving Repr, DecidableEq

/-- The bar constructed by `_create_reading_row` (sensor_card.py line 123):
`RangeBar(min_val=0, max_val=100, good_min=40, good_max=60, current_value=50)`. -/
def BarState.init : BarState :=
  { min_val := 0, max_val := 100, good_min := 40, good_max := 60, current_value := 50 }

/-- The mutable state of a `SensorCardWidget` (sensor_card.py `__init__`).
Displayed numeric labels are `Option ℚ` (`none` is the initial `??` text).
`out_attr` models the Python instance attribute `out_of_range_count`:
`none` means the attribute is absent from the object, so reading
`card.out_of_range_count` raises `AttributeError`.  `__init__` never creates
it, and `update_data` only uses a local variable of that name. -/
structure CardState where
  sensor_id : String
  sensor_name : String
  is_favorite : Bool
  out_attr : Option Nat
  temp_shown : Option ℚ
  hum_shown : Option ℚ
  vpd_shown : Option ℚ
  battery_shown : Option ℚ
  timestamp_shown : Option String
  color_box : String
  temp_bar : BarState
  hum_bar : BarState
  vpd_bar : BarState
deriving Repr, DecidableEq

/-- sensor_card.py line 54: the colour-box style set in `__init__` and again
when `out_of_range_count == 0` (line 236). -/
def greenBox : String := "#28a745"

/-- sensor_card.py line 238: colour box when `out_of_range_count == 1`. -/
def yellowBox : String := "#FFFF00"

/-- sensor_card.py line 240: colour box when `out_of_range_count >= 2`. -/
def redBox : String := "#FF0000"

/-- `SensorCardWidget.__init__` (sensor_card.py lines 22-103): no favourite,
no readings displayed, default bars, green colour box, and no
`out_of_range_count` attribute. -/
def CardState.init (sid name : String) : CardState :=
  { sensor_id := sid, sensor_name := name, is_favorite := false,
    out_attr := none, temp_shown := none, hum_shown := none, vpd_shown := none,
    battery_shown := none, timestamp_shown := none, color_box := greenBox,
    temp_bar := BarState.init, hum_bar := BarState.init, vpd_bar := BarState.init }

/-- The bar state after the three setter calls `setRange` / `setGoodRange` /
`setValue` inside a metric block of `update_data`
(sensor_card.py lines 184-186, 198-200, 212-214). -/
def barAfterSet (range good : ℚ × ℚ) (v : ℚ) : BarState :=
  { min_val := range.1, max_val := range.2,
    good_min := good.1, good_max := good.2, current_value := v }

/-- `SensorCardWidget.update_data` (sensor_card.py lines 129-240), embedded as
an in-place state transformer returning the mutated card together with the
exception that escaped, if any.  `RangeBar` defines no method named
`setMarkerColor` (range_bar.py has only `setRange`, `setGoodRange`,
`setValue`, `paintEvent`), yet both branches of each metric block call
`bar.setMarkerColor(...)` (sensor_card.py lines 190/192, 204/206, 218/220):
the first present metric therefore raises `AttributeError` right after its
labels and bar setters have run, and the rest of the method — including the
colour-box update — is skipped.  With no metric present, the method runs to
the end with a count of 0 and paints the box green.  In no path is
`self.out_of_range_count` ever assigned. -/
def update_data (c : CardState) (temp_f humidity vpd battery_voltage : Option ℚ)
    (timestamp_str : Option String) (signal_strength : Option ℚ)
    (range_config : Option RangeConfigDict) : CardState × Option String :=
  let b := effectiveBands range_config
  match temp_f with
  | some t =>
      ({ c with temp_shown := some t, temp_bar := barAfterSet b.temp_range b.temp_good t },
       some "AttributeError")
  | none =>
  match humidity with
  | some hq =>
      ({ c with hum_shown := some hq, hum_bar := barAfterSet b.hum_range b.hum_good hq },
       some "AttributeError")
  | none =>
  match vpd with
  | some vq =>
      ({ c with vpd_shown := some vq, vpd_bar := barAfterSet b.vpd_range b.vpd_good vq },
       some "AttributeError")
  | none =>
    let c1 := match battery_voltage with
      | some bv => { c with battery_shown := some bv }
      | none => c
    let c2 := match timestamp_str with
      | some ts => if ts = "" then c1 else { c1 with timestamp_shown := some ts }
      | none => c1
    let _ := signal_strength
    ({ c2 with color_box := greenBox }, none)

end SensorCard

namespace Dashboard

open SensorCard

/-- Python `str.lower()` on the character sequence of a string. -/
def lowerCs (s : List Char) : List Char := s.map Char.toLower

/-- Python `str.strip()`: whitespace removed from both ends. -/
def trimCs (s : List Char) : List Char :=
  ((s.dropWhile Char.isWhitespace).reverse.dropWhile Char.isWhitespace).reverse

/-- Python substring test `needle in hay` (`""` is contained in everything). -/
def hasSub (needle : List Char) : List Char → Bool
  | [] => needle.isEmpty
  | h :: t => List.isPrefixOf needle (h :: t) || hasSub needle t

/-- The mutable state of `DashboardTab` (dashboard_tab.py `__init__`):
`cards_by_sensor_id` (an insertion-ordered dict, embedded as an association
list), `ordered_sensor_ids`, the search text, and the three checkbox states. -/
structure Dash where
  cards : List (String × CardState)
  ordered_sensor_ids : List String
  search_text : String
  hide_non_favorites : Bool
  show_minor : Bool
  show_major : Bool
deriving Repr, DecidableEq

/-- `DashboardTab.__init__` (dashboard_tab.py lines 14-68): empty registry and
order, empty search text, `Hide Non-Favorites` unchecked, `Show Minor Issues`
and `Show Major Issues` checked. -/
def Dash.init : Dash :=
  { cards := [], ordered_sensor_ids := [], search_text := "",
    hide_non_favorites := false, show_minor := true, show_major := true }

/-- The loop body of `_rebuild_layout` (dashboard_tab.py lines 104-133),
returning the sensor ids whose cards are added to the flow layout, in order.
`cards_by_sensor_id[sensor_id]` on a missing key raises `KeyError`
(line 105); `card.out_of_range_count` on a card lacking the attribute raises
`AttributeError` (line 119). -/
def rebuildGo (cards : List (String × CardState)) (sl : List Char)
    (hnf sm smaj : Bool) : List String → Except String (List String)
  | [] => .ok []
  | sid :: rest =>
    match List.lookup sid cards with
    | none => .error "KeyError"
    | some card =>
      if hasSub sl (lowerCs card.sensor_name.data) = false then
        rebuildGo cards sl hnf sm smaj rest
      else if hnf && !card.is_favorite then
        rebuildGo cards sl hnf sm smaj rest
      else
        match card.out_attr with
        | none => .error "AttributeError"
        | some outCount =>
          if outCount == 1 && !sm then rebuildGo cards sl hnf sm smaj rest
          else if decide (2 ≤ outCount) && !smaj then rebuildGo cards sl hnf sm smaj rest
          else do
            let r ← rebuildGo cards sl hnf sm smaj rest
            pure (sid :: r)

/-- `DashboardTab._rebuild_layout` (dashboard_tab.py lines 87-133): lower-case
and strip the search text once, then walk `ordered_sensor_ids` applying the
three filters. -/
def rebuildLayout (d : Dash) : Except String (List String) :=
  rebuildGo d.cards (trimCs (lowerCs d.search_text.data))
    d.hide_non_favorites d.show_minor d.show_major d.ordered_sensor_ids

/-- `DashboardTab._on_favorite_toggled` (dashboard_tab.py lines 149-156):
remove the id from the order if present (`list.remove` drops the first
occurrence), then insert at the front (favorite) or append at the back
(unfavorite) — unconditionally, whether or not the id is known — and rebuild
the layout. -/
def onFavoriteToggled (d : Dash) (sid : String) (fav : Bool) :
    Dash × Except String (List String) :=
  let o := if sid ∈ d.ordered_sensor_ids then d.ordered_sensor_ids.erase sid
           else d.ordered_sensor_ids
  let o2 := if fav then sid :: o else o ++ [sid]
  let d2 := { d with ordered_sensor_ids := o2 }
  (d2, rebuildLayout d2)

/-- Replace the card stored under `sid` (a Python dict item assignment on an
existing key). -/
def setCard (cards : List (String × CardState)) (sid : String) (c : CardState) :
    List (String × CardState) :=
  cards.map fun p => if p.1 = sid then (p.1, c) else p

/-- `DashboardTab.update_sensor_card` together with `get_or_create_card`
(dashboard_tab.py lines 70-85 and 135-147), embedded as a state transformer
returning the mutated dashboard plus the exception that escaped, if any.
A new id creates a card, appends the id, and immediately rebuilds (line 81);
an existing id has its card's `sensor_name` overwritten (line 83).  Then
`card.update_data(...)` runs and, if it returns, the layout is rebuilt
(line 147). -/
def update_sensor_card (d : Dash) (sid name : String)
    (temp_f humidity vpd battery_voltage : Option ℚ)
    (timestamp_str : Option String) (signal_strength : Option ℚ)
    (range_config : Option RangeConfigDict) : Dash × Option String :=
  let afterUpdate := fun (d1 : Dash) (card : CardState) =>
    let r := SensorCard.update_data card temp_f humidity vpd battery_voltage
        timestamp_str signal_strength range_config
    let d2 := { d1 with cards := setCard d1.cards sid r.1 }
    match r.2 with
    | some e => (d2, some e)
    | none =>
      match rebuildLayout d2 with
      | .error e => (d2, some e)
      | .ok _ => (d2, none)
  match List.lookup sid d.cards with
  | none =>
      let card := CardState.init sid name
      let d1 := { d with cards := d.cards ++ [(sid, card)],
                         ordered_sensor_ids := d.ordered_sensor_ids ++ [sid] }
      match rebuildLayout d1 with
      | .error e => (d1, some e)
      | .ok _ => afterUpdate d1 card
  | some card0 =>
      let card1 := { card0 with sensor_name := name }
      let d1 := { d with cards := setCard d.cards sid card1 }
      afterUpdate d1 card1

end Dashboard

namespace FlowLayoutM

/-- One entry of `FlowLayout.itemList`: the widget's `sizeHint()` width and
height (Qt sizes are integers) and its `isVisible()` flag. -/
structure LItem where
  width : ℤ
  height : ℤ
  visible : Bool
deriving Repr, DecidableEq

/-- The rectangle passed to `item.setGeometry(QRect(QPoint(x, y),
item.sizeHint()))` in `doLayout` (flow_layout.py line 79). -/
structure Placement where
  x : ℤ
  y : ℤ
  w : ℤ
  h : ℤ
deriving Repr, DecidableEq

/-- The loop of `FlowLayout.doLayout` (flow_layout.py lines 64-84) over the
cursor state `(x, y, lineHeight)`.  `rx` is `rect.x()`, `rright` is
`rect.right()` (`rect.x() + rect.width() - 1` for an integer `QRect`), and
`space` is the layout spacing (used as both `spaceX` and `spaceY`).  Invisible
widgets are skipped (line 66-67); the wrap test is
`nextX - spaceX > rect.right() and lineHeight > 0` (line 72); `setGeometry`
runs only when not `testOnly` (line 78-79).  Returns the placements made and
the final `y + lineHeight` (the return at line 84 before subtracting
`rect.y()`). -/
def doLayoutGo (rx rright space : ℤ) (testOnly : Bool) :
    List LItem → ℤ → ℤ → ℤ → List Placement × ℤ
  | [], _x, y, lineHeight => ([], y + lineHeight)
  | it :: rest, x, y, lineHeight =>
    if it.visible = false then doLayoutGo rx rright space testOnly rest x y lineHeight
    else
      let nextX := x + it.width + space
      if nextX - space > rright ∧ 0 < lineHeight then
        let y2 := y + lineHeight + space
        let nextX2 := rx + it.width + space
        let res := doLayoutGo rx rright space testOnly rest nextX2 y2 (max 0 it.height)
        ((if testOnly then res.1 else ⟨rx, y2, it.width, it.height⟩ :: res.1), res.2)
      else
        let res := doLayoutGo rx rright space testOnly rest nextX y (max lineHeight it.height)
        ((if testOnly then res.1 else ⟨x, y, it.width, it.height⟩ :: res.1), res.2)

/-- `FlowLayout.doLayout(rect, testOnly)` (flow_layout.py lines 59-84): start
the cursor at `(rect.x(), rect.y())` with `lineHeight = 0` and return
`y + lineHeight - rect.y()`.  The layout's contents margins are never read
here. -/
def doLayout (rx ry width space : ℤ) (testOnly : Bool) (items : List LItem) :
    List Placement × ℤ :=
  let res := doLayoutGo rx (rx + width - 1) space testOnly items rx ry 0
  (res.1, res.2 - ry)

/-- `FlowLayout.heightForWidth(width)` (flow_layout.py lines 40-41):
`doLayout(QRect(0, 0, width, 0), True)`. -/
def heightForWidth (width space : ℤ) (items : List LItem) : ℤ :=
  (doLayout 0 0 width space true items).2

end FlowLayoutM

namespace RangeBarM

/-- The local `clamp(x, a, b) = max(a, min(b, x))` of `RangeBar.paintEvent`
(range_bar.py lines 60-61). -/
def clamp (x a b : ℚ) : ℚ := max a (min b x)

/-- range_bar.py lines 63-65: `total_range = max_val - min_val`, replaced by
`1e-6` when it is `<= 0`, so the subsequent divisions never divide by zero. -/
def safeTotalRange (mn mx : ℚ) : ℚ :=
  let tr := mx - mn
  if tr ≤ 0 then 1 / 1000000 else tr

/-- The numeric core of `RangeBar.paintEvent` (range_bar.py lines 60-86): the
x-coordinates of the good-region edges and of the current-value marker, as
functions of the bar state and of `bar_rect`'s left edge and width. -/
def paintGeom (mn mx gmin gmax value barLeft barWidth : ℚ) : ℚ × ℚ × ℚ :=
  let tr := safeTotalRange mn mx
  let g1 := clamp gmin mn mx
  let g2 := clamp gmax mn mx
  let fracGmin := (g1 - mn) / tr
  let fracGmax := (g2 - mn) / tr
  let fracVal := (clamp value mn mx - mn) / tr
  (barLeft + fracGmin * barWidth, barLeft + fracGmax * barWidth,
   barLeft + fracVal * barWidth)

end RangeBarM

namespace SpecModel

open SensorCard FlowLayoutM

/-- Follows the spec's words (§3, §4.1): a `SensorEntity` with a latest
reading merged field-by-field, a sticky `RangeConfig`, and a derived
severity count. -/
structure SpecEntity where
  name : String
  temp : Option ℚ
  hum : Option ℚ
  vpd : Option ℚ
  rangeConfig : Option RangeConfigDict
  severity : Nat
  favorite : Bool
deriving Repr, DecidableEq

/-- Follows the spec's words (§4.1, seen-id case of `upsert`): merge only the
non-absent reading fields, replace the config only when one is supplied
(sticky otherwise), then recompute severity from the merged reading and the
retained config. -/
def specUpsertSeen (e : SpecEntity) (name : Option String)
    (temp hum vpd : Option ℚ) (rc : Option RangeConfigDict) : SpecEntity :=
  let temp2 := match temp with | some x => some x | none => e.temp
  let hum2 := match hum with | some x => some x | none => e.hum
  let vpd2 := match vpd with | some x => some x | none => e.vpd
  let rc2 := match rc with | some c => some c | none => e.rangeConfig
  { e with name := name.getD e.name, temp := temp2, hum := hum2, vpd := vpd2,
           rangeConfig := rc2, severity := classify temp2 hum2 vpd2 rc2 }

/-- Follows the spec's words (§4.2): whether a metric is present in the
reading and lies strictly outside its good band. -/
def presentOut (v : Option ℚ) (band : ℚ × ℚ) : Bool :=
  match v with
  | none => false
  | some x => decide (x < band.1 ∨ band.2 < x)

/-- The number of metrics present in a reading. -/
def presentCount (t h v : Option ℚ) : Nat :=
  t.elim 0 (fun _ => 1) + h.elim 0 (fun _ => 1) + v.elim 0 (fun _ => 1)

/-- Follows the spec's words (§4.3): the conjunction of the three visibility
clauses — search containment, favorite gate, severity gate. -/
def specPass (sl : List Char) (hnf sm smaj : Bool) (name : String)
    (fav : Bool) (cnt : Nat) : Bool :=
  Dashboard.hasSub sl (Dashboard.lowerCs name.data) && (!hnf || fav) &&
    (cnt == 0 || (cnt == 1 && sm) || (decide (2 ≤ cnt) && smaj))

/-- The cursor `(x, y, lineHeight)` of the spec's flow-layout algorithm. -/
def FlowState := ℤ × ℤ × ℤ

/-- Follows the spec's words (§4.4): one visible item's step — compute
`nextX`; wrap (`x := margin`, `y += lineHeight + spacing`, `lineHeight := 0`,
recompute `nextX`) when `nextX - spacing` exceeds the limit and the line
already holds an item; place at the cursor; advance `x`; update
`lineHeight`. -/
def flowPlace (margin limit space : ℤ) (it : LItem) (s : FlowState) :
    Placement × FlowState :=
  let nextX0 := s.1 + it.width + space
  let s1 : FlowState :=
    if nextX0 - space > limit ∧ 0 < s.2.2 then (margin, s.2.1 + s.2.2 + space, 0) else s
  (⟨s1.1, s1.2.1, it.width, it.height⟩, (s1.1 + it.width + space, s1.2.1, max s1.2.2 it.height))

/-- Follows the spec's words (§4.4): run the algorithm over the items in
order, skipping invisible ones, returning the placements and the final
`y + lineHeight`. -/
def flowRun (margin limit space : ℤ) : List LItem → FlowState → List Placement × ℤ
  | [], s => ([], s.2.1 + s.2.2)
  | it :: rest, s =>
    if it.visible then
      let r := flowPlace margin limit space it s
      let rr := flowRun margin limit space rest r.2
      (r.1 :: rr.1, rr.2)
    else flowRun margin limit space rest s

/-- Follows the spec's words (§4.4 as quoted by the claim): cursor starts at
`(margin, margin)`, wrap limit `containerWidth - margin`, total height
`y + lineHeight` less the top margin offset. -/
def flowSpec (items : List LItem) (containerWidth space margin : ℤ) :
    List Placement × ℤ :=
  let r := flowRun margin (containerWidth - margin) space items (margin, margin, 0)
  (r.1, r.2 - margin)

/-- The spec's algorithm amended to what flow_layout.py does: the configured
margin is ignored — the cursor starts at the layout rect's origin (`(0, 0)`
in the height-for-width path) — and the wrap limit is `containerWidth - 1`
(`QRect.right()`), so a line wraps as soon as `nextX - spacing` reaches
`containerWidth`. -/
def flowSpecAmended (items : List LItem) (containerWidth space : ℤ) :
    List Placement × ℤ :=
  flowRun 0 (containerWidth - 1) space items (0, 0, 0)

end SpecModel

open SensorCard Dashboard FlowLayoutM RangeBarM SpecModel

lemma metricOut_eq_ite (o : Option ℚ) (b : ℚ × ℚ) :
    metricOut o b = if presentOut o b then 1 else 0 := by
  cases o with
  | none => rfl
  | some x => simp [metricOut, presentOut]

lemma metricOut_le_one (o : Option ℚ) (b : ℚ × ℚ) : metricOut o b ≤ 1 := by
  rw [metricOut_eq_ite]; split <;> omega

lemma count_true_three (b1 b2 b3 : Bool) :
    ([b1, b2, b3].count true) =
      (if b1 then 1 else 0) + (if b2 then 1 else 0) + (if b3 then 1 else 0) := by
  cases b1 <;> cases b2 <;> cases b3 <;> rfl

/-- C3: `classify` returns exactly the number of the three metrics present in
the reading that lie strictly outside their good band; boundary values are
in-band (for a well-formed band); the result is at most 3; and the two worked
examples of the spec hold against the default temperature band `[55, 65]`. -/
theorem C3_classify_counts_strictly_outside :
    (∀ t h v rc, classify t h v rc =
        ([presentOut t (effectiveBands rc).temp_good,
          presentOut h (effectiveBands rc).hum_good,
          presentOut v (effectiveBands rc).vpd_good].count true)
      ∧ classify t h v rc ≤ 3)
    ∧ (∀ (b : ℚ × ℚ) (x : ℚ), b.1 ≤ b.2 → x = b.1 ∨ x = b.2 →
        metricOut (some x) b = 0)
    ∧ classify (some 70) none none none = 1
    ∧ classify (some 60) none none none = 0 := by
  refine ⟨fun t h v rc => ?_, fun b x hb hx => ?_, by decide, by decide⟩
  · have hc : classify t h v rc =
        metricOut t (effectiveBands rc).temp_good +
        metricOut h (effectiveBands rc).hum_good +
        metricOut v (effectiveBands rc).vpd_good := rfl
    constructor
    · rw [hc, count_true_three, metricOut_eq_ite, metricOut_eq_ite, metricOut_eq_ite]
    · have h1 := metricOut_le_one t (effectiveBands rc).temp_good
      have h2 := metricOut_le_one h (effectiveBands rc).hum_good
      have h3 := metricOut_le_one v (effectiveBands rc).vpd_good
      rw [hc]; omega
  · have hcond : ¬(x < b.1 ∨ b.2 < x) := by
      rcases hx with rfl | rfl
      · exact fun hor => hor.elim (lt_irrefl _) (fun hlt => absurd hb (not_le.mpr hlt))
      · exact fun hor => hor.elim (fun hlt => absurd hb (not_le.mpr hlt)) (lt_irrefl _)
    simp [metricOut, hcond]

/-- C3 witness: the theorem applied at the default band `[55, 65]` and its
left boundary value. -/
theorem C3_witness : metricOut (some (55 : ℚ)) (55, 65) = 0 :=
  C3_classify_counts_strictly_outside.2.1 (55, 65) 55 (by norm_num) (Or.inl rfl)

/-- C8: with no per-sensor config supplied, the effective bands are exactly
the fixed defaults — temperature scale 32–100 with good band 55–65, humidity
0–100 with good 45–65, vpd 0–3 with good 0.8–1.2 — and classification judges
each metric against those good bands. -/
theorem C8_default_bands :
    effectiveBands none =
      { temp_range := (32, 100), temp_good := (55, 65),
        hum_range := (0, 100), hum_good := (45, 65),
        vpd_range := (0, 3), vpd_good := (4/5, 6/5) }
    ∧ (∀ t h v, classify t h v none =
        metricOut t (55, 65) + metricOut h (45, 65) + metricOut v (4/5, 6/5))
    ∧ (4/5 : ℚ) = 0.8 ∧ (6/5 : ℚ) = 1.2 :=
  ⟨rfl, fun _ _ _ => rfl, by norm_num, by norm_num⟩

lemma metricOut_of_degenerate (b : ℚ × ℚ) (x : ℚ) (hb : b.2 < b.1) :
    metricOut (some x) b = 1 := by
  have hcond : x < b.1 ∨ b.2 < x := by
    rcases lt_or_le x b.1 with hlt | hle
    · exact Or.inl hlt
    · exact Or.inr (lt_of_lt_of_le hb hle)
  simp [metricOut, hcond]

lemma doLayoutGo_length (rx rr space : ℤ) (items : List LItem) :
    ∀ x y lh, ((doLayoutGo rx rr space false items x y lh).1).length
      = (items.filter fun it => it.visible).length := by
  induction items with
  | nil => intro x y lh; rfl
  | cons it rest ih =>
    intro x y lh
    cases hv : it.visible with
    | false => simp [doLayoutGo, hv, ih]
    | true =>
      simp only [doLayoutGo, hv]
      rw [if_neg (by simp : ¬(true = false))]
      split <;> simp [hv, ih]

/-- C9: classification and the range-bar geometry are total on every input,
malformed bands included — the guarded denominator of `paintEvent` is always
strictly positive, a good band with `good_min > good_max` makes every present
value count as out of range (so `classify` degenerates to the number of
present metrics), and the layout always produces exactly one placement per
visible item. -/
theorem C9_total_and_degenerate :
    (∀ mn mx : ℚ, 0 < safeTotalRange mn mx)
    ∧ (∀ (b : ℚ × ℚ) (x : ℚ), b.2 < b.1 → metricOut (some x) b = 1)
    ∧ (∀ t h v rc,
        (effectiveBands rc).temp_good.2 < (effectiveBands rc).temp_good.1 →
        (effectiveBands rc).hum_good.2 < (effectiveBands rc).hum_good.1 →
        (effectiveBands rc).vpd_good.2 < (effectiveBands rc).vpd_good.1 →
        classify t h v rc = presentCount t h v)
    ∧ (∀ rx ry w space items,
        ((doLayout rx ry w space false items).1).length
          = (items.filter fun it => it.visible).length) := by
  refine ⟨fun mn mx => ?_, metricOut_of_degenerate, fun t h v rc h1 h2 h3 => ?_,
    fun rx ry w space items => ?_⟩
  · simp only [safeTotalRange]
    split
    · norm_num
    · next hgt => linarith [not_le.mp hgt]
  · have hc : classify t h v rc =
        metricOut t (effectiveBands rc).temp_good +
        metricOut h (effectiveBands rc).hum_good +
        metricOut v (effectiveBands rc).vpd_good := rfl
    rw [hc]
    have hnone : ∀ b : ℚ × ℚ, metricOut none b = 0 := fun _ => rfl
    cases t <;> cases h <;> cases v <;>
      simp [presentCount, hnone, metricOut_of_degenerate _ _ h1,
        metricOut_of_degenerate _ _ h2, metricOut_of_degenerate _ _ h3]
  · simpa [doLayout] using doLayoutGo_length rx (rx + w - 1) space items rx ry 0

lemma doLayoutGo_snd_testOnly (rx rr space : ℤ) (items : List LItem) :
    ∀ (x y lh : ℤ) (t : Bool),
      (doLayoutGo rx rr space t items x y lh).2
        = (doLayoutGo rx rr space false items x y lh).2 := by
  induction items with
  | nil => intro x y lh t; rfl
  | cons it rest ih =>
    intro x y lh t
    cases hv : it.visible with
    | false => simp [doLayoutGo, hv, ih]
    | true =>
      simp only [doLayoutGo, hv]
      rw [if_neg (by simp : ¬(true = false)), if_neg (by simp : ¬(true = false))]
      split <;> simp [ih]

lemma doLayoutGo_snd_translate (rx rr space dx dy : ℤ) (items : List LItem) :
    ∀ (x y lh : ℤ) (t : Bool),
      (doLayoutGo (rx + dx) (rr + dx) space t items (x + dx) (y + dy) lh).2
        = (doLayoutGo rx rr space t items x y lh).2 + dy := by
  induction items with
  | nil => intro x y lh t; simp only [doLayoutGo]; ring
  | cons it rest ih =>
    intro x y lh t
    cases hv : it.visible with
    | false => simp only [doLayoutGo, hv]; rw [if_pos trivial, if_pos trivial]; exact ih x y lh t
    | true =>
      simp only [doLayoutGo, hv]
      rw [if_neg (by simp : ¬(true = false)), if_neg (by simp : ¬(true = false))]
      by_cases hcond : x + it.width + space - space > rr ∧ 0 < lh
      · have hcond2 : (x + dx) + it.width + space - space > rr + dx ∧ 0 < lh :=
          ⟨by omega, hcond.2⟩
        rw [if_pos hcond, if_pos hcond2]
        dsimp only
        have h1 : rx + dx + it.width + space = (rx + it.width + space) + dx := by ring
        have h2 : y + dy + lh + space = (y + lh + space) + dy := by ring
        rw [h1, h2]
        exact ih (rx + it.width + space) (y + lh + space) (max 0 it.height) t
      · have hcond2 : ¬((x + dx) + it.width + space - space > rr + dx ∧ 0 < lh) := by
          intro hc; exact hcond ⟨by omega, hc.2⟩
        rw [if_neg hcond, if_neg hcond2]
        dsimp only
        have h1 : x + dx + it.width + space = (x + it.width + space) + dx := by ring
        rw [h1]
        exact ih (x + it.width + space) y (max lh it.height) t

/-- C10: `heightForWidth` (the test-only, height-for-width run of `doLayout`
over the zero-origin rect) returns exactly the total height that the full,
placement-producing `doLayout` computes over any rect of the same width: the
height is independent of the rect's origin and of `testOnly`. -/
theorem C10_measure_equals_layout_height :
    ∀ (rx ry w space : ℤ) (items : List LItem),
      (doLayout rx ry w space false items).2 = heightForWidth w space items := by
  intro rx ry w space items
  simp only [doLayout, heightForWidth]
  rw [show (0 : ℤ) + w - 1 = w - 1 from by ring]
  have htr := doLayoutGo_snd_translate 0 (w - 1) space rx ry items 0 0 0 false
  rw [show (0 : ℤ) + rx = rx from by ring, show w - 1 + rx = rx + w - 1 from by ring,
    show (0 : ℤ) + ry = ry from by ring] at htr
  have ht := doLayoutGo_snd_testOnly 0 (w - 1) space items 0 0 0 true
  omega

lemma doLayoutGo_eq_flowRun (rx rr space : ℤ) (items : List LItem) :
    ∀ x y lh, doLayoutGo rx rr space false items x y lh
      = flowRun rx rr space items (x, y, lh) := by
  induction items with
  | nil => intro x y lh; rfl
  | cons it rest ih =>
    intro x y lh
    cases hv : it.visible with
    | false =>
      simp only [doLayoutGo, flowRun, hv]
      rw [if_pos trivial, if_neg (by simp : ¬(false = true))]
      exact ih x y lh
    | true =>
      by_cases hcond : x + it.width + space - space > rr ∧ 0 < lh
      · have h1 : rr < x + it.width := by omega
        have h2 : (0 : ℤ) < lh := hcond.2
        simp only [doLayoutGo, flowRun, flowPlace, hv]
        simp [h1, h2, ih (rx + it.width + space) (y + lh + space) (max 0 it.height)]
      · have hn : ¬(rr < x + it.width ∧ 0 < lh) := by omega
        simp only [doLayoutGo, flowRun, flowPlace, hv]
        simp [hn, ih (x + it.width + space) y (max lh it.height)]

lemma doLayoutGo_sizes (rx rr space : ℤ) (items : List LItem) :
    ∀ x y lh, ((doLayoutGo rx rr space false items x y lh).1.map fun p => (p.w, p.h))
      = ((items.filter fun it => it.visible).map fun it => (it.width, it.height)) := by
  induction items with
  | nil => intro x y lh; rfl
  | cons it rest ih =>
    intro x y lh
    cases hv : it.visible with
    | false => simp [doLayoutGo, hv, ih]
    | true =>
      simp only [doLayoutGo, hv]
      rw [if_neg (by simp : ¬(true = false))]
      split <;> simp [hv, ih]

/-- C6 (amended): the layout follows the spec's flow algorithm with two
corrections — the configured margin is ignored (the cursor starts at the
rect's origin, `(0, 0)` in the height-for-width path, and the wrap limit is
the rect's right edge) and a wrap fires as soon as `nextX - spacing` reaches
`containerWidth` (strictly exceeds `containerWidth - 1 = QRect.right()`),
not only when it exceeds `containerWidth`.  Invisible items are skipped,
visible items are placed in input order at their intrinsic sizes, and a
single item wider than the container is placed at the cursor without
wrapping against itself. -/
theorem C6_amended_flow_algorithm :
    (∀ (items : List LItem) (w space : ℤ),
        doLayout 0 0 w space false items = flowSpecAmended items w space)
    ∧ (∀ (rx ry w space : ℤ) (items : List LItem),
        ((doLayout rx ry w space false items).1.map fun p => (p.w, p.h))
          = ((items.filter fun it => it.visible).map fun it => (it.width, it.height)))
    ∧ (∀ (w space : ℤ) (it : LItem), it.visible = true →
        (doLayout 0 0 w space false [it]).1 = [⟨0, 0, it.width, it.height⟩]) := by
  refine ⟨fun items w space => ?_, fun rx ry w space items => ?_, fun w space it hv => ?_⟩
  · simp only [doLayout, flowSpecAmended]
    rw [show (0 : ℤ) + w - 1 = w - 1 from by ring,
      doLayoutGo_eq_flowRun 0 (w - 1) space items 0 0 0]
    simp
  · simpa [doLayout] using doLayoutGo_sizes rx (rx + w - 1) space items rx ry 0
  · simp [doLayout, doLayoutGo, hv]

/-- C6 witness: the amended theorem applied to a single visible item wider
than the container (width 330 in a 100-wide container at spacing 10). -/
theorem C6_witness :
    (doLayout 0 0 100 10 false [⟨330, 50, true⟩]).1 = [⟨0, 0, 330, 50⟩] :=
  C6_amended_flow_algorithm.2.2 100 10 ⟨330, 50, true⟩ rfl

/-- C6 counterexample: the algorithm of the spec, taken literally, disagrees
with the code.  (a) Two 100-wide items at spacing 10 in a 210-wide container
with margin 0: the spec keeps them on one line (`nextX - spacing = 210` does
not exceed `containerWidth - margin = 210`), total height 50, but
`heightForWidth` wraps (210 > `rect.right()` = 209) giving height 110.
(b) With margin 10, the spec places the first item at `(margin, margin) =
(10, 10)`, but `doLayout` over the zero-origin rect places it at `(0, 0)`. -/
theorem C6_counterexample :
    ((flowSpec [⟨100, 50, true⟩, ⟨100, 50, true⟩] 210 10 0).2 = 50
      ∧ heightForWidth 210 10 [⟨100, 50, true⟩, ⟨100, 50, true⟩] = 110)
    ∧ ((flowSpec [⟨100, 50, true⟩] 330 10 10).1 = [⟨10, 10, 100, 50⟩]
      ∧ (doLayout 0 0 330 10 false [⟨100, 50, true⟩]).1 = [⟨0, 0, 100, 50⟩]) := by
  exact ⟨⟨by decide, by decide⟩, by decide, by decide⟩

lemma hasSub_nil (l : List Char) : hasSub [] l = true := by
  cases l <;> simp [hasSub, List.isPrefixOf]

lemma rebuildGo_ok (cards : List (String × CardState)) (sl : List Char)
    (hnf sm smaj : Bool) :
    ∀ ids : List String,
      (∀ sid ∈ ids, ∃ c n, List.lookup sid cards = some c ∧ c.out_attr = some n) →
      rebuildGo cards sl hnf sm smaj ids = .ok (ids.filter fun sid =>
        match List.lookup sid cards with
        | some c => specPass sl hnf sm smaj c.sensor_name c.is_favorite (c.out_attr.getD 0)
        | none => false) := by
  intro ids
  induction ids with
  | nil => intro _; rfl
  | cons sid rest ih =>
    intro hall
    obtain ⟨c, n, hc, hn⟩ := hall sid (List.mem_cons_self _ _)
    have hrest := ih fun s hs => hall s (List.mem_cons_of_mem _ hs)
    simp only [rebuildGo, hc, List.filter_cons, specPass, hn, Option.getD_some]
    rcases n with _ | n1
    · cases hs : hasSub sl (lowerCs c.sensor_name.data) <;>
        cases hnf <;> cases hfv : c.is_favorite <;>
        simp [hrest, hc, specPass, hn, Except.bind, Except.pure, hs, hfv]
    · rcases n1 with _ | k
      · cases hs : hasSub sl (lowerCs c.sensor_name.data) <;>
          cases hnf <;> cases hfv : c.is_favorite <;> cases sm <;>
          simp [hrest, hc, specPass, hn, Except.bind, Except.pure, hs, hfv]
      · have h2 : (2 : ℕ) ≤ k + 2 := by omega
        have h1 : ¬(k + 2 = 1) := by omega
        have h0 : ¬(k + 2 = 0) := by omega
        cases hs : hasSub sl (lowerCs c.sensor_name.data) <;>
          cases hnf <;> cases hfv : c.is_favorite <;> cases smaj <;>
          simp [hrest, hc, specPass, hn, Except.bind, Except.pure, hs, hfv, h2, h1, h0]

/-- C2: `_rebuild_layout` is exactly an order-preserving filter — when every
listed card is present and exposes a severity count, it succeeds and keeps
precisely the entities satisfying the conjunction of the three clauses
(search containment with empty text always passing, favorite gate, severity
gate), returning a sublist of the input order; the empty search text passes
every name; and a severity-0 entity is never excluded by the showMinor /
showMajor toggles. -/
theorem C2_visible_filter :
    (∀ d : Dash,
      (∀ sid ∈ d.ordered_sensor_ids,
          ∃ c n, List.lookup sid d.cards = some c ∧ c.out_attr = some n) →
      rebuildLayout d = .ok (d.ordered_sensor_ids.filter fun sid =>
          match List.lookup sid d.cards with
          | some c => specPass (trimCs (lowerCs d.search_text.data)) d.hide_non_favorites
              d.show_minor d.show_major c.sensor_name c.is_favorite (c.out_attr.getD 0)
          | none => false)
        ∧ ∀ l, rebuildLayout d = .ok l → l.Sublist d.ordered_sensor_ids)
    ∧ (∀ s : String, hasSub (trimCs (lowerCs (String.data ""))) (lowerCs s.data) = true)
    ∧ (∀ sl hnf sm smaj name fav, specPass sl hnf sm smaj name fav 0
        = (hasSub sl (lowerCs name.data) && (!hnf || fav))) := by
  refine ⟨fun d hall => ?_, fun s => ?_, fun sl hnf sm smaj name fav => ?_⟩
  · have hmain := rebuildGo_ok d.cards (trimCs (lowerCs d.search_text.data))
      d.hide_non_favorites d.show_minor d.show_major d.ordered_sensor_ids hall
    refine ⟨hmain, fun l hl => ?_⟩
    rw [rebuildLayout] at hl
    rw [hmain] at hl
    cases hl
    exact List.filter_sublist _
  · exact hasSub_nil _
  · simp [specPass]

/-- C2 witness: the theorem applied to a concrete two-card dashboard (one
healthy non-favorite, one severity-2 favorite) with the permissive default
filter state: both cards stay, in order. -/
theorem C2_witness :
    rebuildLayout
      { cards := [("s1", { CardState.init "s1" "Alpha" with out_attr := some 0 }),
                  ("s2", { CardState.init "s2" "Beta" with
                            out_attr := some 2, is_favorite := true })],
        ordered_sensor_ids := ["s1", "s2"], search_text := "",
        hide_non_favorites := false, show_minor := true, show_major := true }
      = .ok ["s1", "s2"] := by
  have h := (C2_visible_filter.1
    { cards := [("s1", { CardState.init "s1" "Alpha" with out_attr := some 0 }),
                ("s2", { CardState.init "s2" "Beta" with
                          out_attr := some 2, is_favorite := true })],
      ordered_sensor_ids := ["s1", "s2"], search_text := "",
      hide_non_favorites := false, show_minor := true, show_major := true }
    (by
      intro sid hsid
      simp only [List.mem_cons, List.not_mem_nil, or_false] at hsid
      rcases hsid with rfl | rfl
      · exact ⟨_, 0, rfl, rfl⟩
      · exact ⟨_, 2, rfl, rfl⟩)).1
  rw [h]
  rfl

/-- C4: evaluation of `_on_favorite_toggled` at an id unknown to the
registry.  With only `"s1"` known, `setFavorite("s2", true)` is NOT a no-op:
the unknown id is inserted at the front of `ordered_sensor_ids` (so the order
no longer contains exactly the known ids), and the rebuild that the handler
triggers raises `KeyError` at `cards_by_sensor_id[sensor_id]`. -/
theorem C4_unknown_id_not_noop :
    (onFavoriteToggled
        { Dash.init with cards := [("s1", CardState.init "s1" "Sensor 1")],
                         ordered_sensor_ids := ["s1"] }
        "s2" true).1.ordered_sensor_ids = ["s2", "s1"]
    ∧ List.lookup "s2" [("s1", CardState.init "s1" "Sensor 1")] = none
    ∧ (onFavoriteToggled
        { Dash.init with cards := [("s1", CardState.init "s1" "Sensor 1")],
                         ordered_sensor_ids := ["s1"] }
        "s2" true).2 = .error "KeyError" := by
  refine ⟨by decide, by decide, ?_⟩
  rfl

/-- C5: for a known id, `_on_favorite_toggled` removes the id from
`ordered_sensor_ids` and reinserts it at the front (favorite) or at the back
(unfavorite); from `["s1", "s2", "s3"]`, favoriting `"s3"` and then `"s1"`
yields `["s1", "s3", "s2"]` — last toggle-to-favorite wins the front slot. -/
theorem C5_favorite_reorder :
    (∀ (d : Dash) (sid : String), sid ∈ d.ordered_sensor_ids →
        (onFavoriteToggled d sid true).1.ordered_sensor_ids
            = sid :: d.ordered_sensor_ids.erase sid
        ∧ (onFavoriteToggled d sid false).1.ordered_sensor_ids
            = d.ordered_sensor_ids.erase sid ++ [sid])
    ∧ (onFavoriteToggled
        (onFavoriteToggled
          { Dash.init with ordered_sensor_ids := ["s1", "s2", "s3"] } "s3" true).1
        "s1" true).1.ordered_sensor_ids = ["s1", "s3", "s2"] := by
  constructor
  · intro d sid hmem
    constructor <;> simp [onFavoriteToggled, hmem]
  · decide

/-- C5 witness: the theorem applied at the order `["s1", "s2", "s3"]` and the
known id `"s2"`. -/
theorem C5_witness :
    (onFavoriteToggled { Dash.init with ordered_sensor_ids := ["s1", "s2", "s3"] }
        "s2" true).1.ordered_sensor_ids = "s2" :: (["s1", "s2", "s3"].erase "s2") :=
  (C5_favorite_reorder.1 { Dash.init with ordered_sensor_ids := ["s1", "s2", "s3"] }
    "s2" (by decide)).1

/-- C1: evaluation of the update path at the first reading of a fresh
dashboard (`update_sensor_card("s1", "Sensor 1", temp_f=70, ...)`).  The call
escapes with `AttributeError`, the stored card still has no
`out_of_range_count` attribute (it is only ever a local variable of
`update_data`), a subsequent `_rebuild_layout` also raises `AttributeError`
when the filter step reads `card.out_of_range_count`, and `update_data`
itself raises `AttributeError` (at the undefined `bar.setMarkerColor`)
without creating the attribute: no severity count in {0,1,2,3} is ever
exposed to the filter step. -/
theorem C1_severity_never_exposed :
    (update_sensor_card Dash.init "s1" "Sensor 1" (some 70) none none none
        none none none).2 = some "AttributeError"
    ∧ ((List.lookup "s1" (update_sensor_card Dash.init "s1" "Sensor 1" (some 70)
        none none none none none none).1.cards).map fun c => c.out_attr) = some none
    ∧ rebuildLayout (update_sensor_card Dash.init "s1" "Sensor 1" (some 70)
        none none none none none none).1 = .error "AttributeError"
    ∧ (SensorCard.update_data (CardState.init "s1" "Sensor 1") (some 70) none none
        none none none none).1.out_attr = none
    ∧ (SensorCard.update_data (CardState.init "s1" "Sensor 1") (some 70) none none
        none none none none).2 = some "AttributeError" := by
  exact ⟨rfl, rfl, rfl, rfl, rfl⟩

/-- C7 counterexample: two consecutive upserts of the seen card `"s1"` refute
the claim.  First `update_data(temp_f=70, range_config={temp_good: (60,80)})`,
then `update_data(temp_f=70)` with the config omitted: the second call
reconfigures the temperature bar with the DEFAULT good band `(55, 65)` — the
previously supplied config is not retained — whereas the spec-modelled upsert
retains the config (so its band is `(60, 80)` and its recomputed severity
is 0).  Moreover both calls escape with `AttributeError`, the colour box is
still the `__init__` green and no severity attribute exists, while the
spec-modelled upsert of `temp=70` with no config has severity 1: severity is
not recomputed from the merged reading and retained config. -/
theorem C7_counterexample :
    ((SensorCard.update_data
        (SensorCard.update_data (CardState.init "s1" "Sensor 1") (some 70) none none
          none none none (some { temp_good := some (60, 80) })).1
        (some 70) none none none none none none).1.temp_bar.good_min = 55
    ∧ (SensorCard.update_data
        (SensorCard.update_data (CardState.init "s1" "Sensor 1") (some 70) none none
          none none none (some { temp_good := some (60, 80) })).1
        (some 70) none none none none none none).1.temp_bar.good_max = 65)
    ∧ ((specUpsertSeen
        (specUpsertSeen
          { name := "Sensor 1", temp := none, hum := none, vpd := none,
            rangeConfig := none, severity := 0, favorite := false }
          (some "Sensor 1") (some 70) none none (some { temp_good := some (60, 80) }))
        (some "Sensor 1") (some 70) none none none).rangeConfig
          = some { temp_good := some (60, 80) }
    ∧ (specUpsertSeen
        (specUpsertSeen
          { name := "Sensor 1", temp := none, hum := none, vpd := none,
            rangeConfig := none, severity := 0, favorite := false }
          (some "Sensor 1") (some 70) none none (some { temp_good := some (60, 80) }))
        (some "Sensor 1") (some 70) none none none).severity = 0)
    ∧ ((SensorCard.update_data
        (SensorCard.update_data (CardState.init "s1" "Sensor 1") (some 70) none none
          none none none (some { temp_good := some (60, 80) })).1
        (some 70) none none none none none none).2 = some "AttributeError"
    ∧ (SensorCard.update_data
        (SensorCard.update_data (CardState.init "s1" "Sensor 1") (some 70) none none
          none none none (some { temp_good := some (60, 80) })).1
        (some 70) none none none none none none).1.color_box = greenBox
    ∧ (SensorCard.update_data
        (SensorCard.update_data (CardState.init "s1" "Sensor 1") (some 70) none none
          none none none (some { temp_good := some (60, 80) })).1
        (some 70) none none none none none none).1.out_attr = none)
    ∧ (specUpsertSeen
        { name := "Sensor 1", temp := none, hum := none, vpd := none,
          rangeConfig := none, severity := 0, favorite := false }
        none (some 70) none none none).severity = 1 := by
  refine ⟨⟨by decide, by decide⟩, ⟨rfl, by decide⟩, ⟨rfl, rfl, rfl⟩, by decide⟩

/-- C7 (amended): `update_data` applies the supplied fields in the order
temperature, humidity, vpd — the first present metric has its label replaced
and its bar reconfigured entirely from THIS call's config (the defaults when
it is omitted; nothing is retained from earlier calls), after which the call
raises `AttributeError` at the undefined `bar.setMarkerColor`, leaving every
later field, the colour box and the (never-created) severity attribute
untouched; a call with no metric present completes, updating battery and
timestamp and painting the colour box green (count 0).  Absent fields always
leave the prior displayed values untouched. -/
theorem C7_amended_update_semantics :
    ∀ (c : CardState) (t h v bv : Option ℚ) (ts : Option String) (sg : Option ℚ)
      (rc : Option RangeConfigDict),
      (SensorCard.update_data c t h v bv ts sg rc).1.out_attr = c.out_attr
      ∧ (∀ x, t = some x →
          (SensorCard.update_data c t h v bv ts sg rc).1.temp_shown = some x
          ∧ (SensorCard.update_data c t h v bv ts sg rc).1.temp_bar
              = barAfterSet (effectiveBands rc).temp_range (effectiveBands rc).temp_good x
          ∧ (SensorCard.update_data c t h v bv ts sg rc).2 = some "AttributeError"
          ∧ (SensorCard.update_data c t h v bv ts sg rc).1.color_box = c.color_box
          ∧ (SensorCard.update_data c t h v bv ts sg rc).1.hum_shown = c.hum_shown
          ∧ (SensorCard.update_data c t h v bv ts sg rc).1.vpd_shown = c.vpd_shown)
      ∧ (t = none →
          (SensorCard.update_data c t h v bv ts sg rc).1.temp_shown = c.temp_shown
          ∧ (SensorCard.update_data c t h v bv ts sg rc).1.temp_bar = c.temp_bar)
      ∧ (t = none → ∀ x, h = some x →
          (SensorCard.update_data c t h v bv ts sg rc).1.hum_shown = some x
          ∧ (SensorCard.update_data c t h v bv ts sg rc).1.hum_bar
              = barAfterSet (effectiveBands rc).hum_range (effectiveBands rc).hum_good x
          ∧ (SensorCard.update_data c t h v bv ts sg rc).2 = some "AttributeError"
          ∧ (SensorCard.update_data c t h v bv ts sg rc).1.color_box = c.color_box)
      ∧ (t = none → h = none → ∀ x, v = some x →
          (SensorCard.update_data c t h v bv ts sg rc).1.vpd_shown = some x
          ∧ (SensorCard.update_data c t h v bv ts sg rc).1.vpd_bar
              = barAfterSet (effectiveBands rc).vpd_range (effectiveBands rc).vpd_good x
          ∧ (SensorCard.update_data c t h v bv ts sg rc).2 = some "AttributeError"
          ∧ (SensorCard.update_data c t h v bv ts sg rc).1.color_box = c.color_box)
      ∧ (t = none → h = none → v = none →
          (SensorCard.update_data c t h v bv ts sg rc).2 = none
          ∧ (SensorCard.update_data c t h v bv ts sg rc).1.color_box = greenBox
          ∧ (SensorCard.update_data c t h v bv ts sg rc).1.temp_shown = c.temp_shown
          ∧ (SensorCard.update_data c t h v bv ts sg rc).1.hum_shown = c.hum_shown
          ∧ (SensorCard.update_data c t h v bv ts sg rc).1.vpd_shown = c.vpd_shown) := by
  intro c t h v bv ts sg rc
  cases t <;> cases h <;> cases v <;> cases bv <;> cases ts <;>
    simp [SensorCard.update_data] <;>
    split <;> simp

/-- C7 witness: the amended theorem applied at a concrete card and a call
supplying only the temperature. -/
theorem C7_witness :
    (SensorCard.update_data (CardState.init "s1" "Sensor 1") (some 70) none none
        none none none none).2 = some "AttributeError" :=
  ((C7_amended_update_semantics (CardState.init "s1" "Sensor 1") (some 70) none none
      none none none none).2.1 70 rfl).2.2.1

/-- C9 witness: the theorem applied at a malformed band `good = (65, 55)` and
a config whose three good bands are all inverted. -/
theorem C9_witness :
    metricOut (some (60 : ℚ)) (65, 55) = 1 ∧
    classify (some 60) (some 50) (some 1)
      (some { temp_good := some (65, 55), hum_good := some (65, 45),
              vpd_good := some (2, 1) }) = 3 := by
  constructor
  · exact C9_total_and_degenerate.2.1 (65, 55) 60 (by norm_num)
  · rw [C9_total_and_degenerate.2.2.1 (some 60) (some 50) (some 1)
      (some { temp_good := some (65, 55), hum_good := some (65, 45),
              vpd_good := some (2, 1) })
      (by norm_num [effectiveBands]) (by norm_num [effectiveBands])
      (by norm_num [effectiveBands])]
    rfl
